import Mathlib

/-!
Shallow embedding of the deployment-progress state machine of
`compass/db/models.py`: the `StateMixin` transition rules, the
`HostState` / `ClusterHostState` cascades, the `ClusterState`
aggregation, and the configuration-mutation bookkeeping, together with
theorems settling the specification claims about them.

Python floats only ever hold exact small rationals in this code
(0.0, 1.0 and ratios of host counts), so `percentage` is embedded as `ℚ`.
Python exceptions (`AttributeError`, `TypeError`, `ZeroDivisionError`)
are embedded with `Except`.
-/

namespace Compass

/-- Enum column of `StateMixin`: state values
UNINITIALIZED, INITIALIZED, INSTALLING, SUCCESSFUL, ERROR. -/
inductive CState where
  | uninitialized
  | initialized
  | installing
  | successful
  | error
deriving DecidableEq, Repr

/-- Enum column of `StateMixin`: severity values INFO, WARNING, ERROR. -/
inductive Severity where
  | info
  | warning
  | error
deriving DecidableEq, Repr

/-- Columns of `StateMixin` (shared by `HostState`, `ClusterHostState` and,
extended with counters, `ClusterState`): state, percentage, message,
severity, with the column defaults of the source. -/
structure StateRec where
  state : CState := CState.uninitialized
  percentage : ℚ := 0
  message : String := ""
  severity : Severity := Severity.info
deriving DecidableEq, Repr

/-- StateMixin.update (models.py lines 282-295): three sequential `if`
statements mutating `self`; embedded as a chain of rebindings. -/
def StateMixin.update (r : StateRec) : StateRec :=
  let r :=
    if r.state = CState.uninitialized ∨ r.state = CState.initialized then
      { r with percentage := 0, severity := Severity.info, message := "" }
    else r
  let r :=
    if r.state = CState.installing then
      if r.severity = Severity.error then
        { r with state := CState.error }
      else if r.percentage ≥ 1 then
        { r with state := CState.successful, percentage := 1 }
      else r
    else r
  if r.state = CState.successful then { r with percentage := 1 } else r

/-- ClusterHostState.update (models.py lines 396-406). The relationship
`ClusterHost.state` declares `backref('host')`, so `self.host` on a
ClusterHostState is the owning ClusterHost, not the Host; hence
`host_state = self.host.state` is this very record. The two promotion
guards therefore compare the state of the record with itself under two
different values and can never hold; the embedding discharges the
unreachable promotion bodies with an impossibility proof. -/
def ClusterHostState.update (r : StateRec) : StateRec :=
  let host_state := r
  let r :=
    if h1 : r.state = CState.initialized then
      if h2 : host_state.state = CState.uninitialized then
        False.elim (by simp only [host_state, h1] at h2; exact absurd h2 (by simp))
      else r
    else if h3 : r.state = CState.installing then
      if h4 : host_state.state = CState.uninitialized ∨
          host_state.state = CState.initialized then
        False.elim (by simp only [host_state, h3] at h4; exact absurd h4 (by simp))
      else r
    else r
  StateMixin.update r

/-- Configuration values: a JSON-like tree of nested string-keyed
mappings with atomic leaves. -/
inductive Config where
  | atom (n : Int)
  | dict (entries : List (String × Config))

/-- Top-level configuration blob: the JSON columns default to `{}`. -/
abbrev ConfigBlob := List (String × Config)

mutual

/-- Modelled from the spec: `util.merge_dict` (compass/utils/util.py is
not under src) deep-merges the second mapping into the first — for each
key, if both the existing and the new value are mappings they are merged
recursively, otherwise the new value overwrites. -/
def merge_dict (lhs rhs : ConfigBlob) : ConfigBlob :=
  match rhs with
  | [] => lhs
  | (k, v) :: rest => merge_dict (mergeKey lhs k v) rest

/-- Merge one key-value pair into a mapping (helper of merge_dict). -/
def mergeKey (lhs : ConfigBlob) (k : String) (v : Config) : ConfigBlob :=
  match lhs with
  | [] => [(k, v)]
  | (k0, v0) :: rest =>
    if k0 = k then
      match v0, v with
      | Config.dict a, Config.dict b => (k0, Config.dict (merge_dict a b)) :: rest
      | _, _ => (k0, v) :: rest
    else (k0, v0) :: mergeKey rest k v

end

/-- Python `d[k] = v` on an insertion-ordered dict: replace in place if
the key exists, append otherwise. -/
def setItem (d : ConfigBlob) (k : String) (v : Config) : ConfigBlob :=
  match d with
  | [] => [(k, v)]
  | (k0, v0) :: rest =>
    if k0 = k then (k0, v) :: rest else (k0, v0) :: setItem rest k v

/-- Python `dict.update`: shallow overwrite of the top-level keys present
in the supplied mapping. -/
def dict_update (d value : ConfigBlob) : ConfigBlob :=
  value.foldl (fun acc kv => setItem acc kv.1 kv.2) d

/-- Python membership test of a related ORM state object against string
literals, as written in `Host.update` (`self.state in ['SUCCESSFUL',
'ERROR']`), `ClusterHost.update`, and the membership guards of
`HostState.update` (`clusterhost.state in [...]`): the left operand is
the related state object, not its `state` column, and equality between a
model instance and `str` falls back to identity, so the test is always
False. -/
def stateObjInStrings (_r : StateRec) (_l : List String) : Bool := false

/-- ClusterHost row: membership of a Host in a Cluster. `state` is the
related ClusterHostState record; `host_state` is the StateMixin record
of the underlying Host (`clusterhost.host.state`), snapshotted here to
keep the entity graph acyclic. -/
structure ClusterHost where
  state : StateRec := {}
  host_state : StateRec := {}
  package_config : ConfigBlob := []
  config_validated : Bool := false

/-- Host row with its HostState record and memberships. The out-of-scope
OS catalog relationship is represented by the optional name of the
related OS row. -/
structure Host where
  state : StateRec := {}
  reinstall_os : Bool := true
  config_validated : Bool := false
  os_config : ConfigBlob := []
  os : Option String := none
  os_name : Option String := none
  clusterhosts : List ClusterHost := []

/-- Membership step of the HostState.update cascade: the guard
`clusterhost.state in [...strings...]` compares the ClusterHostState
object itself against strings (see stateObjInStrings) and never holds,
so the body — which would assign a string over the `state` relationship
and then call `.update()` on that string — is unreachable and discharged
by an impossibility proof. -/
def hostCascadeStep (strs : List String) (ch : ClusterHost) : ClusterHost :=
  if hg : stateObjInStrings ch.state strs = true then
    False.elim (by simp [stateObjInStrings] at hg)
  else ch

/-- HostState.update (models.py lines 613-637): on INSTALLING, clears the
owning Host reinstall_os flag and walks the memberships; on
UNINITIALIZED and INITIALIZED only walks the memberships; finally the
StateMixin rules run on the HostState record itself. -/
def HostState.update (h : Host) : Host :=
  let h :=
    if h.state.state = CState.installing then
      let h := { h with reinstall_os := false }
      { h with clusterhosts :=
          h.clusterhosts.map (hostCascadeStep ["SUCCESSFUL", "ERROR"]) }
    else if h.state.state = CState.uninitialized then
      { h with clusterhosts :=
          h.clusterhosts.map (hostCascadeStep
            ["INITIALIZED", "INSTALLING", "SUCCESSFUL", "ERROR"]) }
    else if h.state.state = CState.initialized then
      { h with clusterhosts :=
          h.clusterhosts.map (hostCascadeStep
            ["INSTALLING", "SUCCESSFUL", "ERROR"]) }
    else h
  { h with state := StateMixin.update h.state }

/-- Host.update (models.py lines 719-732): the reinstall gate tests
`self.state in ['SUCCESSFUL', 'ERROR']` where `self.state` is the
HostState object, so the gate never fires and its body (state reset and
`self.state.update()`) is unreachable; then the os_name bookkeeping. -/
def Host.update (h : Host) : Host :=
  let h :=
    if h.reinstall_os then
      if hg : stateObjInStrings h.state ["SUCCESSFUL", "ERROR"] = true then
        False.elim (by simp [stateObjInStrings] at hg)
      else h
    else h
  { h with os_name := h.os }

/-- Setter of Host.patched_os_config (models.py lines 691-695): deep
merge plus invalidation. -/
def Host.patched_os_config (h : Host) (value : ConfigBlob) : Host :=
  { h with os_config := merge_dict h.os_config value, config_validated := false }

/-- Setter of Host.put_os_config (models.py lines 701-707): shallow
`dict.update` plus invalidation. -/
def Host.put_os_config (h : Host) (value : ConfigBlob) : Host :=
  { h with os_config := dict_update h.os_config value, config_validated := false }

/-- Setter of ClusterHost.patched_package_config (models.py lines
462-469). -/
def ClusterHost.patched_package_config (ch : ClusterHost) (value : ConfigBlob) :
    ClusterHost :=
  { ch with package_config := merge_dict ch.package_config value,
            config_validated := false }

/-- Setter of ClusterHost.put_package_config (models.py lines 475-484). -/
def ClusterHost.put_package_config (ch : ClusterHost) (value : ConfigBlob) :
    ClusterHost :=
  { ch with package_config := dict_update ch.package_config value,
            config_validated := false }

/-- Counter columns of ClusterState on top of the StateMixin columns
(grouped in `base`). `intsalling_hosts` embeds the misspelled Python
instance attribute written by `self.intsalling_hosts += 1` in
ClusterState.update: it is distinct from the `installing_hosts` column,
does not exist until first assigned (`none` initially), and reading it
while absent raises AttributeError. -/
structure ClusterStateRec where
  base : StateRec := {}
  total_hosts : Int := 0
  installing_hosts : Int := 0
  completed_hosts : Int := 0
  failed_hosts : Int := 0
  intsalling_hosts : Option Int := none

/-- Cluster row. `distributed_system` models the truthiness of
`cluster.distributed_system` (whether a distributed-system adapter is
attached). -/
structure Cluster where
  state : ClusterStateRec := {}
  reinstall_distributed_system : Bool := true
  config_validated : Bool := false
  os_config : ConfigBlob := []
  package_config : ConfigBlob := []
  distributed_system : Bool := false
  clusterhosts : List ClusterHost := []

/-- Setter of Cluster.patched_os_config (models.py lines 982-985). -/
def Cluster.patched_os_config (c : Cluster) (value : ConfigBlob) : Cluster :=
  { c with os_config := merge_dict c.os_config value, config_validated := false }

/-- Setter of Cluster.put_os_config (models.py lines 991-997). -/
def Cluster.put_os_config (c : Cluster) (value : ConfigBlob) : Cluster :=
  { c with os_config := dict_update c.os_config value, config_validated := false }

/-- Setter of Cluster.patched_package_config (models.py lines
1004-1008). -/
def Cluster.patched_package_config (c : Cluster) (value : ConfigBlob) : Cluster :=
  { c with package_config := merge_dict c.package_config value,
           config_validated := false }

/-- Setter of Cluster.put_package_config (models.py lines 1015-1020). -/
def Cluster.put_package_config (c : Cluster) (value : ConfigBlob) : Cluster :=
  { c with package_config := dict_update c.package_config value,
           config_validated := false }

/-- Python exceptions raised by the embedded code. -/
inductive PyErr where
  | attributeError (missing : String)
  | typeError (msg : String)
  | zeroDivisionError
deriving DecidableEq, Repr

/-- Python float division: raises ZeroDivisionError on a zero divisor. -/
def pydiv (a b : ℚ) : Except PyErr ℚ :=
  if b = 0 then Except.error PyErr.zeroDivisionError else Except.ok (a / b)

/-- Embeds `self.intsalling_hosts += 1`: the augmented assignment first
reads the attribute, raising AttributeError when it was never
assigned. -/
def ClusterStateRec.incr_intsalling (cs : ClusterStateRec) :
    Except PyErr ClusterStateRec :=
  match cs.intsalling_hosts with
  | none => Except.error (PyErr.attributeError "intsalling_hosts")
  | some v => Except.ok { cs with intsalling_hosts := some (v + 1) }

/-- Per-membership classification step of ClusterState.update for state
INSTALLING, parameterised by the state consulted (the member Host state
when the cluster has no distributed system, the membership state
otherwise). -/
def clusterCountStep (cs : ClusterStateRec) (st : CState) :
    Except PyErr ClusterStateRec :=
  if st = CState.installing then cs.incr_intsalling
  else if st = CState.error then
    Except.ok { cs with failed_hosts := cs.failed_hosts + 1 }
  else if st = CState.successful then
    Except.ok { cs with completed_hosts := cs.completed_hosts + 1 }
  else Except.ok cs

/-- Progress-message line of ClusterState.update: the template
`'toal %s, installing %s, complted: %s, error $s'` has three conversion
specifiers (the fourth is the literal `$s`) but four arguments, so the
formatting itself raises TypeError; evaluating the argument tuple first
reads the misspelled `intsalling_hosts` attribute, which raises
AttributeError when it was never assigned. -/
def clusterMessage (cs : ClusterStateRec) : Except PyErr String :=
  match cs.intsalling_hosts with
  | none => Except.error (PyErr.attributeError "intsalling_hosts")
  | some _ =>
    Except.error
      (PyErr.typeError "not all arguments converted during string formatting")

/-- ClusterState.update (models.py lines 822-865): recompute total_hosts,
zero the counters on UNINITIALIZED / INITIALIZED, and on INSTALLING
clear the cluster reinstall flag, classify each membership (by the
member Host state for adapter-less clusters, by the membership state
otherwise), derive percentage guarded by a non-zero total, compose the
message, force ERROR severity on failures, and finally run the
StateMixin rules. -/
def ClusterState.update (c : Cluster) : Except PyErr Cluster := do
  let clusterhosts := c.clusterhosts
  let cs := { c.state with total_hosts := (clusterhosts.length : Int) }
  let cs :=
    if cs.base.state = CState.uninitialized ∨
        cs.base.state = CState.initialized then
      { cs with installing_hosts := 0, failed_hosts := 0, completed_hosts := 0 }
    else cs
  if cs.base.state = CState.installing then do
    let c := { c with reinstall_distributed_system := false }
    let cs ←
      if !c.distributed_system then
        clusterhosts.foldlM (fun cs ch => clusterCountStep cs ch.host_state.state) cs
      else
        clusterhosts.foldlM (fun cs ch => clusterCountStep cs ch.state.state) cs
    let cs ←
      if cs.total_hosts ≠ 0 then do
        let p ← pydiv (cs.completed_hosts : ℚ) (cs.total_hosts : ℚ)
        pure { cs with base := { cs.base with percentage := p } }
      else
        pure cs
    let msg ← clusterMessage cs
    let cs := { cs with base := { cs.base with message := msg } }
    let cs :=
      if cs.failed_hosts ≠ 0 then
        { cs with base := { cs.base with severity := Severity.error } }
      else cs
    pure { c with state := { cs with base := StateMixin.update cs.base } }
  else
    pure { c with state := { cs with base := StateMixin.update cs.base } }

end Compass

namespace Compass

/-- State record invariants stated by the spec: percentage within
bounds, SUCCESSFUL pegs percentage at 1, and the two initial states
carry zero percentage, INFO severity and an empty message. -/
def StateRec.invariant (r : StateRec) : Prop :=
  0 ≤ r.percentage ∧ r.percentage ≤ 1 ∧
  (r.state = CState.successful → r.percentage = 1) ∧
  ((r.state = CState.uninitialized ∨ r.state = CState.initialized) →
    r.percentage = 0 ∧ r.severity = Severity.info ∧ r.message = "")

/-- Result record of ClusterState.update on the states that do not enter
the INSTALLING branch (helper for the theorems below). -/
def clusterStateAfter (c : Cluster) : ClusterStateRec :=
  let cs := { c.state with total_hosts := (c.clusterhosts.length : Int) }
  let cs :=
    if cs.base.state = CState.uninitialized ∨
        cs.base.state = CState.initialized then
      { cs with installing_hosts := 0, failed_hosts := 0, completed_hosts := 0 }
    else cs
  { cs with base := StateMixin.update cs.base }

/-- Sample membership whose distributed-system installation succeeded. -/
def chSucc : ClusterHost :=
  { state := { state := CState.successful, percentage := 1 } }

/-- Sample membership whose distributed-system installation failed. -/
def chErr : ClusterHost :=
  { state := { state := CState.error, severity := Severity.error } }

/-- Sample membership half-way through installation. -/
def chInst : ClusterHost :=
  { state := { state := CState.installing, percentage := 1/2 } }

/-- Sample Host in SUCCESSFUL state with a pending, unvalidated
reinstall request. -/
def hostSucc : Host :=
  { state := { state := CState.successful, percentage := 1 },
    reinstall_os := true, config_validated := false }

/-- Sample Host whose state was set to UNINITIALIZED, with three
memberships in SUCCESSFUL, ERROR and INSTALLING states. -/
def hostUninit : Host :=
  { state := {}, clusterhosts := [chSucc, chErr, chInst] }

/-- Sample Host half-way through installation, with one membership. -/
def hostInst : Host :=
  { state := { state := CState.installing, percentage := 1/2 },
    clusterhosts := [chSucc] }

/-- Sample Cluster with a distributed-system adapter, in INSTALLING
state, whose four memberships are SUCCESSFUL, SUCCESSFUL, ERROR and
INSTALLING. -/
def clusterFour : Cluster :=
  { state := { base := { state := CState.installing } },
    distributed_system := true,
    clusterhosts := [chSucc, chSucc, chErr, chInst] }

/-- Sample Cluster with zero memberships in SUCCESSFUL state with a
stale percentage. -/
def clusterEmptySucc : Cluster :=
  { state := { base := { state := CState.successful, percentage := 3/10 } } }

/-- Sample Cluster with zero memberships in the initial state. -/
def clusterEmptyUninit : Cluster := {}

/-- Sample membership record half-way through installation, used as a
ClusterHostState. -/
def memInst : StateRec := { state := CState.installing, percentage := 1/2 }

/-- Helper: the StateMixin rules establish the invariants from a
percentage within bounds. -/
theorem stateMixin_update_invariant (r : StateRec)
    (h0 : 0 ≤ r.percentage) (h1 : r.percentage ≤ 1) :
    (StateMixin.update r).invariant := by
  rcases r with ⟨s, p, m, v⟩
  cases s <;> cases v <;>
    simp_all [StateMixin.update, StateRec.invariant] <;>
    split_ifs <;>
    simp_all

end Compass

namespace Compass

/-- Helper: the promotion branches of ClusterHostState.update are dead,
so the method degenerates to the plain StateMixin rules. -/
theorem clusterHostState_update_eq (r : StateRec) :
    ClusterHostState.update r = StateMixin.update r := by
  unfold ClusterHostState.update
  rcases r with ⟨s, p, m, v⟩
  cases s <;> simp

/-- Helper: the membership step of the HostState cascade is the
identity, since its guard is the always-false object-to-string test. -/
theorem hostCascadeStep_eq_id (strs : List String) :
    hostCascadeStep strs = id :=
  funext fun _ => rfl

/-- Helper: HostState.update only clears reinstall_os on INSTALLING and
applies the StateMixin rules to its own record; the membership walks are
identities. -/
theorem hostState_update_eq (h : Host) :
    HostState.update h =
      { h with
        reinstall_os :=
          if h.state.state = CState.installing then false else h.reinstall_os,
        state := StateMixin.update h.state } := by
  unfold HostState.update
  rcases hs : h.state.state <;>
    simp [hs, hostCascadeStep_eq_id, List.map_id]

/-- Helper: the reinstall gate of Host.update is dead, so the method
only performs the os_name bookkeeping. -/
theorem host_update_eq (h : Host) :
    Host.update h = { h with os_name := h.os } := by
  unfold Host.update
  cases hb : h.reinstall_os <;> simp [hb, stateObjInStrings]

/-- Helper: StateMixin.update is idempotent. -/
theorem stateMixin_update_idem (r : StateRec) :
    StateMixin.update (StateMixin.update r) = StateMixin.update r := by
  rcases r with ⟨s, p, m, v⟩
  by_cases hp : (1 : ℚ) ≤ p <;>
    cases s <;> cases v <;>
      simp [StateMixin.update, ge_iff_le, hp]

/-- Helper: StateMixin.update changes the state only from INSTALLING. -/
theorem stateMixin_update_state_stable (r : StateRec)
    (h : r.state ≠ CState.installing) :
    (StateMixin.update r).state = r.state := by
  rcases r with ⟨s, p, m, v⟩
  cases s <;> simp_all [StateMixin.update]

end Compass

namespace Compass

/-- Helper: a bind whose continuation always fails, fails. -/
theorem except_bind_isError {α β : Type} (x : Except PyErr α)
    (g : α → Except PyErr β) (hg : ∀ a, ∃ e, g a = Except.error e) :
    ∃ e, (x >>= g) = Except.error e := by
  cases x with
  | error e => exact ⟨e, rfl⟩
  | ok a =>
    rcases hg a with ⟨e, he⟩
    exact ⟨e, by simpa [Bind.bind, Except.bind] using he⟩

/-- Helper: a bind whose head fails, fails. -/
theorem except_bind_error_left {α β : Type} (x : Except PyErr α)
    (g : α → Except PyErr β) (hx : ∃ e, x = Except.error e) :
    ∃ e, (x >>= g) = Except.error e := by
  rcases hx with ⟨e, he⟩
  exact ⟨e, by simp [he, Bind.bind, Except.bind]⟩

/-- Helper: composing the progress message always raises. -/
theorem clusterMessage_isError (cs : ClusterStateRec) :
    ∃ e, clusterMessage cs = Except.error e := by
  unfold clusterMessage
  cases cs.intsalling_hosts <;> simp

/-- Helper: outside the INSTALLING branch, ClusterState.update succeeds
and returns the clusterStateAfter record. -/
theorem clusterState_update_not_installing (c : Cluster)
    (h : c.state.base.state ≠ CState.installing) :
    ClusterState.update c = Except.ok { c with state := clusterStateAfter c } := by
  unfold ClusterState.update clusterStateAfter
  by_cases hc : c.state.base.state = CState.uninitialized ∨
      c.state.base.state = CState.initialized <;>
    simp [h, hc, pure, Except.pure]

/-- Helper: in the INSTALLING branch ClusterState.update always raises,
because the message line is reached on every path and itself raises. -/
theorem clusterState_update_installing_isError (c : Cluster)
    (h : c.state.base.state = CState.installing) :
    ∃ e, ClusterState.update c = Except.error e := by
  unfold ClusterState.update
  simp only [h, reduceCtorEq, or_self, if_false, if_true, reduceIte]
  cases hd : c.distributed_system <;>
  · simp only [hd, Bool.not_false, Bool.not_true, if_true, if_false, reduceIte]
    apply except_bind_isError
    intro y
    by_cases ht : y.total_hosts = 0
    · simp only [ht, ne_eq, not_true_eq_false, if_false, reduceIte, pure_bind]
      apply except_bind_error_left
      exact clusterMessage_isError _
    · simp only [ne_eq, ht, not_false_eq_true, if_true, reduceIte]
      apply except_bind_isError
      intro p
      simp only [pure_bind]
      apply except_bind_error_left
      exact clusterMessage_isError _

/-- Helper: a bind raises a given error only if its head or its
continuation can. -/
theorem except_bind_ne_err {α β : Type} (x : Except PyErr α)
    (g : α → Except PyErr β) (e0 : PyErr) (hx : x ≠ Except.error e0)
    (hg : ∀ a, g a ≠ Except.error e0) : (x >>= g) ≠ Except.error e0 := by
  cases x <;> simp_all [Bind.bind, Except.bind]

/-- Helper: the per-membership counting step can only raise
AttributeError, never ZeroDivisionError. -/
theorem clusterCountStep_ne_zero_div (cs : ClusterStateRec) (st : CState) :
    clusterCountStep cs st ≠ Except.error PyErr.zeroDivisionError := by
  rcases cs with ⟨b, t, i, co, f, ints⟩
  cases st <;> cases ints <;>
    simp [clusterCountStep, ClusterStateRec.incr_intsalling]

/-- Helper: the counting fold never raises ZeroDivisionError. -/
theorem foldl_count_ne_zero_div (f : ClusterHost → CState)
    (l : List ClusterHost) (cs : ClusterStateRec) :
    List.foldlM (fun cs ch => clusterCountStep cs (f ch)) cs l ≠
      Except.error PyErr.zeroDivisionError := by
  induction l generalizing cs with
  | nil => simp [List.foldlM, pure, Except.pure]
  | cons a t ih =>
    rw [List.foldlM_cons]
    exact except_bind_ne_err _ _ _ (clusterCountStep_ne_zero_div cs (f a))
      (fun b => ih b)

/-- Helper: division with a non-zero divisor never raises. -/
theorem pydiv_ne_zero_div (a b : ℚ) (hb : b ≠ 0) :
    pydiv a b ≠ Except.error PyErr.zeroDivisionError := by
  simp [pydiv, hb]

/-- Helper: the message line raises AttributeError or TypeError, never
ZeroDivisionError. -/
theorem clusterMessage_ne_zero_div (cs : ClusterStateRec) :
    clusterMessage cs ≠ Except.error PyErr.zeroDivisionError := by
  unfold clusterMessage
  cases cs.intsalling_hosts <;> simp

/-- Helper: ClusterState.update never raises ZeroDivisionError — the
division is guarded by a non-zero total_hosts. -/
theorem clusterState_update_ne_zero_div (c : Cluster) :
    ClusterState.update c ≠ Except.error PyErr.zeroDivisionError := by
  by_cases h : c.state.base.state = CState.installing
  · unfold ClusterState.update
    simp only [h, reduceCtorEq, or_self, if_false, if_true, reduceIte]
    cases hd : c.distributed_system <;>
    · simp only [hd, Bool.not_false, Bool.not_true, if_true, if_false, reduceIte]
      apply except_bind_ne_err _ _ _ (foldl_count_ne_zero_div _ _ _)
      intro y
      by_cases ht : y.total_hosts = 0
      · simp only [ht, ne_eq, not_true_eq_false, if_false, reduceIte, pure_bind]
        apply except_bind_ne_err _ _ _ (clusterMessage_ne_zero_div y)
        intro msg
        simp [pure, Except.pure]
      · simp only [ne_eq, ht, not_false_eq_true, if_true, reduceIte]
        apply except_bind_ne_err _ _ _
          (pydiv_ne_zero_div _ _ (by exact_mod_cast ht))
        intro p
        simp only [pure_bind]
        apply except_bind_ne_err _ _ _ (clusterMessage_ne_zero_div _)
        intro msg
        simp [pure, Except.pure]
  · rw [clusterState_update_not_installing c h]
    simp

end Compass

namespace Compass

/-- Helper: the StateMixin rules leave the set of initial states
(UNINITIALIZED, INITIALIZED) stable in both directions. -/
theorem stateMixin_update_initial_iff (r : StateRec) :
    ((StateMixin.update r).state = CState.uninitialized ∨
     (StateMixin.update r).state = CState.initialized) ↔
    (r.state = CState.uninitialized ∨ r.state = CState.initialized) := by
  rcases r with ⟨s, p, m, v⟩
  by_cases hp : (1 : ℚ) ≤ p <;>
    cases s <;> cases v <;> simp [StateMixin.update, ge_iff_le, hp]

/-- Helper: the base record after ClusterState.update outside the
INSTALLING branch is the StateMixin update of the previous base. -/
theorem clusterStateAfter_base (c : Cluster) :
    (clusterStateAfter c).base = StateMixin.update c.state.base := by
  unfold clusterStateAfter
  by_cases hc : c.state.base.state = CState.uninitialized ∨
      c.state.base.state = CState.initialized <;>
    simp [hc]

/-- Helper: clusterStateAfter is idempotent. -/
theorem clusterStateAfter_idem (c : Cluster) :
    clusterStateAfter { c with state := clusterStateAfter c } =
      clusterStateAfter c := by
  rcases c with ⟨⟨b, t, i, co, f, ints⟩, rds, cv, oc, pc, ds, chs⟩
  have hiff := stateMixin_update_initial_iff b
  by_cases hc : b.state = CState.uninitialized ∨ b.state = CState.initialized
  · simp only [hc, iff_true] at hiff
    simp only [clusterStateAfter, hc, if_true, hiff, stateMixin_update_idem]
  · simp only [hc, iff_false] at hiff
    simp only [clusterStateAfter, if_neg hc, if_neg hiff, stateMixin_update_idem]

/-- Helper: a successful ClusterState.update is a fixed point of a
second ClusterState.update. -/
theorem clusterState_update_ok_idem (c c' : Cluster)
    (h : ClusterState.update c = Except.ok c') :
    ClusterState.update c' = Except.ok c' := by
  by_cases hin : c.state.base.state = CState.installing
  · rcases clusterState_update_installing_isError c hin with ⟨e, he⟩
    rw [he] at h
    cases h
  · rw [clusterState_update_not_installing c hin] at h
    injection h with h1
    subst h1
    have hni : ({ c with state := clusterStateAfter c } : Cluster).state.base.state ≠
        CState.installing := by
      show (clusterStateAfter c).base.state ≠ CState.installing
      rw [clusterStateAfter_base, stateMixin_update_state_stable c.state.base hin]
      exact hin
    rw [clusterState_update_not_installing _ hni]
    have h2 := clusterStateAfter_idem c
    exact congrArg Except.ok (by rw [h2])

end Compass

namespace Compass

/-- Helper: on the two initial states the StateMixin rules zero the
percentage. -/
theorem stateMixin_update_initial_pct (r : StateRec)
    (h : r.state = CState.uninitialized ∨ r.state = CState.initialized) :
    (StateMixin.update r).percentage = 0 := by
  rcases r with ⟨s, p, m, v⟩
  rcases h with h | h <;>
    (dsimp only at h; subst h; simp [StateMixin.update])

/-- C1: for every StateRecord (whether updated through StateMixin,
ClusterHostState, HostState or a successful ClusterState update),
starting from a percentage within bounds, after update() the invariants
hold: 0 ≤ percentage ≤ 1; state SUCCESSFUL forces percentage 1; and
state UNINITIALIZED or INITIALIZED forces percentage 0, severity INFO
and an empty message. -/
theorem state_record_update_invariant :
    (∀ r : StateRec, 0 ≤ r.percentage → r.percentage ≤ 1 →
      (StateMixin.update r).invariant) ∧
    (∀ r : StateRec, 0 ≤ r.percentage → r.percentage ≤ 1 →
      (ClusterHostState.update r).invariant) ∧
    (∀ h : Host, 0 ≤ h.state.percentage → h.state.percentage ≤ 1 →
      ((HostState.update h).state).invariant) ∧
    (∀ c c' : Cluster, 0 ≤ c.state.base.percentage →
      c.state.base.percentage ≤ 1 → ClusterState.update c = Except.ok c' →
      (c'.state.base).invariant) := by
  refine ⟨stateMixin_update_invariant, ?_, ?_, ?_⟩
  · intro r h0 h1
    rw [clusterHostState_update_eq]
    exact stateMixin_update_invariant r h0 h1
  · intro h h0 h1
    rw [hostState_update_eq]
    exact stateMixin_update_invariant h.state h0 h1
  · intro c c' h0 h1 hok
    by_cases hin : c.state.base.state = CState.installing
    · rcases clusterState_update_installing_isError c hin with ⟨e, he⟩
      rw [he] at hok
      cases hok
    · rw [clusterState_update_not_installing c hin] at hok
      injection hok with h1'
      subst h1'
      show StateRec.invariant (clusterStateAfter c).base
      rw [clusterStateAfter_base]
      exact stateMixin_update_invariant c.state.base h0 h1

/-- C1 witness: the invariant theorem instantiated at concrete records
with in-range percentages. -/
theorem state_record_update_invariant_witness :
    (StateMixin.update memInst).invariant ∧
    (ClusterHostState.update memInst).invariant ∧
    ((HostState.update hostInst).state).invariant ∧
    ((clusterEmptyUninit).state.base).invariant := by
  obtain ⟨t1, t2, t3, t4⟩ := state_record_update_invariant
  exact ⟨t1 memInst (by norm_num [memInst]) (by norm_num [memInst]),
         t2 memInst (by norm_num [memInst]) (by norm_num [memInst]),
         t3 hostInst (by norm_num [hostInst]) (by norm_num [hostInst]),
         t4 clusterEmptyUninit clusterEmptyUninit
            (by norm_num [clusterEmptyUninit])
            (by norm_num [clusterEmptyUninit]) rfl⟩

/-- C5: update() is idempotent for every state machine — StateMixin,
ClusterHostState and HostState compose to themselves, and a successful
ClusterState.update returns a fixed point of a second update (the
INSTALLING branch never completes, so idempotence is stated over
completed updates). -/
theorem update_idempotent :
    (∀ r, StateMixin.update (StateMixin.update r) = StateMixin.update r) ∧
    (∀ r, ClusterHostState.update (ClusterHostState.update r) =
      ClusterHostState.update r) ∧
    (∀ h, HostState.update (HostState.update h) = HostState.update h) ∧
    (∀ c c', ClusterState.update c = Except.ok c' →
      ClusterState.update c' = Except.ok c') := by
  refine ⟨stateMixin_update_idem, ?_, ?_, clusterState_update_ok_idem⟩
  · intro r
    rw [clusterHostState_update_eq, clusterHostState_update_eq,
      stateMixin_update_idem]
  · intro h
    rw [hostState_update_eq, hostState_update_eq]
    by_cases hc : h.state.state = CState.installing
    · simp [hc, stateMixin_update_idem]
    · simp [hc, stateMixin_update_idem, stateMixin_update_state_stable _ hc]

/-- C5 witness: the idempotence theorem applied to a concrete cluster
whose update succeeds. -/
theorem update_idempotent_witness :
    ClusterState.update clusterEmptyUninit = Except.ok clusterEmptyUninit :=
  update_idempotent.2.2.2 clusterEmptyUninit clusterEmptyUninit rfl

/-- C7: on a record in INSTALLING state, update() moves to ERROR when
severity is ERROR, otherwise to SUCCESSFUL with percentage 1 when
percentage reached 1, and otherwise changes nothing. -/
theorem stateMixin_update_installing_rules (r : StateRec)
    (h : r.state = CState.installing) :
    StateMixin.update r =
      if r.severity = Severity.error then { r with state := CState.error }
      else if r.percentage ≥ 1 then
        { r with state := CState.successful, percentage := 1 }
      else r := by
  rcases r with ⟨s, p, m, v⟩
  dsimp only at h
  subst h
  cases v <;> by_cases hp : (1 : ℚ) ≤ p <;>
    simp [StateMixin.update, ge_iff_le, hp]

/-- C7 witness: the INSTALLING rules applied to a concrete record with
ERROR severity. -/
theorem stateMixin_update_installing_rules_witness :
    StateMixin.update { state := CState.installing, severity := Severity.error } =
      { state := CState.error, severity := Severity.error } := by
  have h := stateMixin_update_installing_rules
    { state := CState.installing, severity := Severity.error } rfl
  simpa using h

/-- C10: whenever HostState.update runs with state INSTALLING, it clears
the owning Host reinstall_os flag. -/
theorem hostState_update_clears_reinstall_os (h : Host)
    (hin : h.state.state = CState.installing) :
    (HostState.update h).reinstall_os = false := by
  rw [hostState_update_eq]
  simp [hin]

/-- C10 witness: the flag-clearing theorem applied to a concrete Host in
INSTALLING state. -/
theorem hostState_update_clears_reinstall_os_witness :
    (HostState.update hostInst).reinstall_os = false :=
  hostState_update_clears_reinstall_os hostInst rfl

/-- C8: every configuration write, in either mode (patch or put), on a
Host, ClusterHost or Cluster configuration blob sets the owning entity
config_validated flag to false. -/
theorem config_write_clears_config_validated (h : Host) (ch : ClusterHost)
    (c : Cluster) (value : ConfigBlob) :
    (Host.patched_os_config h value).config_validated = false ∧
    (Host.put_os_config h value).config_validated = false ∧
    (ClusterHost.patched_package_config ch value).config_validated = false ∧
    (ClusterHost.put_package_config ch value).config_validated = false ∧
    (Cluster.patched_os_config c value).config_validated = false ∧
    (Cluster.put_os_config c value).config_validated = false ∧
    (Cluster.patched_package_config c value).config_validated = false ∧
    (Cluster.put_package_config c value).config_validated = false :=
  ⟨rfl, rfl, rfl, rfl, rfl, rfl, rfl, rfl⟩

/-- C2: on the Cluster of the claim (adapter attached, INSTALLING, four
memberships in SUCCESSFUL, SUCCESSFUL, ERROR, INSTALLING) the update
does not produce the aggregated counters: counting the INSTALLING
membership reads the misspelled attribute intsalling_hosts and raises
AttributeError. -/
theorem clusterState_update_aggregation_crash :
    clusterFour.distributed_system = true ∧
    clusterFour.state.base.state = CState.installing ∧
    clusterFour.clusterhosts.map (fun ch => ch.state.state) =
      [CState.successful, CState.successful, CState.error, CState.installing] ∧
    ClusterState.update clusterFour =
      Except.error (PyErr.attributeError "intsalling_hosts") :=
  ⟨rfl, rfl, rfl, rfl⟩

/-- C3: the reinstall gate of Host.update never fires — a Host in
SUCCESSFUL state with reinstall_os set and config_validated unset is
returned unchanged (still SUCCESSFUL), instead of moving to
UNINITIALIZED, because the gate compares the HostState object itself
against strings. -/
theorem host_update_reinstall_gate_dead :
    hostSucc.reinstall_os = true ∧
    hostSucc.config_validated = false ∧
    hostSucc.state.state = CState.successful ∧
    Host.update hostSucc = hostSucc :=
  ⟨rfl, rfl, rfl, rfl⟩

/-- C4: the membership cascade of HostState.update never fires — a Host
in UNINITIALIZED state with three memberships in SUCCESSFUL, ERROR and
INSTALLING states is returned with all memberships unchanged, instead of
forcing them to UNINITIALIZED, because the guard compares the
ClusterHostState object itself against strings. -/
theorem hostState_update_cascade_dead :
    hostUninit.state.state = CState.uninitialized ∧
    hostUninit.clusterhosts.map (fun ch => ch.state.state) =
      [CState.successful, CState.error, CState.installing] ∧
    HostState.update hostUninit = hostUninit :=
  ⟨rfl, rfl, rfl⟩

/-- C6: the upward promotion of ClusterHostState.update never fires — a
membership record in INSTALLING state is returned unchanged and the
method degenerates to the plain StateMixin rules for every record,
because self.host resolves to the owning ClusterHost (whose state is the
record itself), not to the Host. -/
theorem clusterHostState_update_promotion_dead :
    memInst.state = CState.installing ∧
    ClusterHostState.update memInst = memInst ∧
    (∀ r, ClusterHostState.update r = StateMixin.update r) := by
  refine ⟨rfl, ?_, clusterHostState_update_eq⟩
  rw [clusterHostState_update_eq]
  simp [StateMixin.update, memInst]
  norm_num
  decide

/-- C9 counterexample: a Cluster with zero memberships in SUCCESSFUL
state completes update() with percentage 1, not 0, so the claim that
percentage is left at 0 fails as stated. -/
theorem clusterState_zero_hosts_counterexample :
    clusterEmptySucc.clusterhosts = [] ∧
    Except.map (fun c => c.state.base.percentage)
      (ClusterState.update clusterEmptySucc) = Except.ok 1 ∧
    (1 : ℚ) ≠ 0 := by
  refine ⟨rfl, ?_, by norm_num⟩
  simp [ClusterState.update, StateMixin.update, clusterEmptySucc,
    Except.map, pure, Except.pure]

/-- C9 (amended): a Cluster with zero memberships never raises
ZeroDivisionError from update() — the division is guarded by a non-zero
total — and when the state is UNINITIALIZED or INITIALIZED the update
succeeds with percentage 0. -/
theorem clusterState_zero_hosts_no_div_by_zero (c : Cluster)
    (_h : c.clusterhosts = []) :
    ClusterState.update c ≠ Except.error PyErr.zeroDivisionError ∧
    ((c.state.base.state = CState.uninitialized ∨
      c.state.base.state = CState.initialized) →
      ∃ c', ClusterState.update c = Except.ok c' ∧
        c'.state.base.percentage = 0) := by
  refine ⟨clusterState_update_ne_zero_div c, ?_⟩
  intro hc
  have hni : c.state.base.state ≠ CState.installing := by
    rcases hc with hc | hc <;> simp [hc]
  refine ⟨_, clusterState_update_not_installing c hni, ?_⟩
  show (clusterStateAfter c).base.percentage = 0
  rw [clusterStateAfter_base]
  exact stateMixin_update_initial_pct c.state.base hc

/-- C9 witness: the amended theorem applied to a concrete zero-membership
cluster in the initial state. -/
theorem clusterState_zero_hosts_no_div_by_zero_witness :
    (ClusterState.update clusterEmptyUninit ≠
      Except.error PyErr.zeroDivisionError) ∧
    (∃ c', ClusterState.update clusterEmptyUninit = Except.ok c' ∧
      c'.state.base.percentage = 0) := by
  obtain ⟨w1, w2⟩ := clusterState_zero_hosts_no_div_by_zero clusterEmptyUninit rfl
  exact ⟨w1, w2 (Or.inl rfl)⟩

end Compass
